import Mathlib

/-!
Verification of the Dagger CI/CD module `dudleys_second_bedroom/main.py`.

The module is a thin orchestrator of external container operations.  We embed
it shallowly: a `Directory` is a finite association of file paths to contents,
a `Container` is the list of operations the code chains onto it, and the
outcome of each external command is given by an `ExecOracle` (the code only
decides in which order commands are issued and how exit codes propagate; the
commands themselves run outside the module).  Every definition mirrors the
corresponding Python function line by line.
-/

namespace DudleysSecondBedroom

/-- A source directory: finite map from file paths to file contents,
mirroring `dagger.Directory` restricted to what the module reads. -/
abbrev Directory := List (String × String)

/-- Embedding of `source.file(path).contents()`: the contents of the file at
`path`, or `none` when the file is absent (the engine then errors). -/
def Directory.file (d : Directory) (path : String) : Option String :=
  (d.find? (fun e => e.1 == path)).map (fun e => e.2)

/-- Embedding of `source.directory(path)`: the subdirectory at `path`
(entries whose path starts with `path ++ "/"`, with that part stripped). -/
def Directory.directory (d : Directory) (path : String) : Directory :=
  d.filterMap (fun e =>
    if (path ++ "/").isPrefixOf e.1 then
      some (e.1.drop (path ++ "/").length, e.2)
    else none)

/-- An opaque registry secret handle (`dagger.Secret`). -/
structure Secret where
  id : String
deriving DecidableEq, Repr

/-- One operation chained onto a container. -/
inductive ContainerOp where
  | withExec (args : List String)
  | withDirectory (path : String) (dir : Directory)
  | withMountedDirectory (path : String) (dir : Directory)
  | withWorkdir (path : String)
deriving DecidableEq, Repr

/-- A container: its base image and the ordered operations chained onto it. -/
structure Container where
  base : String
  ops : List ContainerOp
deriving DecidableEq, Repr

/-- Embedding of `dag.container()`. -/
def dag_container : Container := { base := "", ops := [] }

/-- Embedding of `.from_(image)`. -/
def Container.from_ (c : Container) (image : String) : Container :=
  { c with base := image }

/-- Embedding of `.with_exec(args)`. -/
def Container.with_exec (c : Container) (args : List String) : Container :=
  { c with ops := c.ops ++ [ContainerOp.withExec args] }

/-- Embedding of `.with_directory(path, dir)`. -/
def Container.with_directory (c : Container) (path : String) (dir : Directory) : Container :=
  { c with ops := c.ops ++ [ContainerOp.withDirectory path dir] }

/-- Embedding of `.with_mounted_directory(path, dir)`. -/
def Container.with_mounted_directory (c : Container) (path : String) (dir : Directory) :
    Container :=
  { c with ops := c.ops ++ [ContainerOp.withMountedDirectory path dir] }

/-- Embedding of `.with_workdir(path)`. -/
def Container.with_workdir (c : Container) (path : String) : Container :=
  { c with ops := c.ops ++ [ContainerOp.withWorkdir path] }

/-- The commands a container issues, in order. -/
def Container.execArgs (c : Container) : List (List String) :=
  c.ops.filterMap (fun op =>
    match op with
    | ContainerOp.withExec args => some args
    | _ => none)

/-- Exit code and captured output of one external command. -/
structure ExecResult where
  exitCode : Nat
  output : String
deriving DecidableEq, Repr

/-- Outcome oracle for external commands: the module never inspects a
behaviour of a command, only its exit code and output as reported by the
engine for the current source tree and environment. -/
abbrev ExecOracle := List String → ExecResult

/-- Result of forcing a container: the commands actually executed, in order,
and the output of the first failing command (if any).  The engine stops at
the first non-zero exit and surfaces the output of that command as the
error. -/
structure RunOutcome where
  executed : List (List String)
  error : Option String
deriving DecidableEq, Repr

/-- Fail-fast execution of the operations of a container under an oracle. -/
def runOps (oracle : ExecOracle) : List ContainerOp → RunOutcome
  | [] => { executed := [], error := none }
  | ContainerOp.withExec args :: rest =>
      let r := oracle args
      if r.exitCode = 0 then
        let o := runOps oracle rest
        { executed := args :: o.executed, error := o.error }
      else
        { executed := [args], error := some r.output }
  | ContainerOp.withDirectory _ _ :: rest => runOps oracle rest
  | ContainerOp.withMountedDirectory _ _ :: rest => runOps oracle rest
  | ContainerOp.withWorkdir _ :: rest => runOps oracle rest

/-- Embedding of `.sync()`: evaluation of a container. -/
def Container.run (c : Container) (oracle : ExecOracle) : RunOutcome :=
  runOps oracle c.ops

/-- The `dnf install -y shellcheck jq git` setup command of `validate`. -/
def dnfInstallCmd : List String := ["dnf", "install", "-y", "shellcheck", "jq", "git"]

/-- The shellcheck sweep over `build_files` in `validate`. -/
def shellcheckCmd : List String :=
  ["bash", "-c", "find build_files -name \x27*.sh\x27 -exec shellcheck \x7b\x7d +"]

/-- The JSON well-formedness check on `packages.json` in `validate`. -/
def jqEmptyCmd : List String := ["jq", "empty", "packages.json"]

/-- The module-metadata validation script invocation in `validate`. -/
def validateModulesCmd : List String := ["bash", "tests/validate-modules.sh"]

/-- The package-manifest validation script invocation in `validate`. -/
def validatePackagesCmd : List String := ["bash", "tests/validate-packages.sh"]

/-- Embedding of `validate(source)`: the validation container, exactly as chained in
`main.py` lines 45-55. -/
def validate (source : Directory) : Container :=
  ((((((dag_container.from_ "fedora:41").with_exec
    dnfInstallCmd).with_directory
    "/workspace" source).with_workdir
    "/workspace").with_exec
    shellcheckCmd).with_exec
    jqEmptyCmd).with_exec
    validateModulesCmd |>.with_exec
    validatePackagesCmd

/-- One `--build-arg` of a container build (`dagger.BuildArg`). -/
structure BuildArg where
  name : String
  value : String
deriving DecidableEq, Repr

/-- The container-build invocation `source.docker_build(...)` constructs. -/
structure BuildInvocation where
  src : Directory
  dockerfile : String
  build_args : List BuildArg
deriving DecidableEq, Repr

/-- Embedding of `build(source, image_name, tag, base_image, git_commit)`:
it constructs the
docker build of `Containerfile` with build args `IMAGE_NAME` and
`SHA_HEAD_SHORT` (`main.py` lines 106-114).  `tag` and `base_image` are
accepted but never used by the body. -/
def build (source : Directory) (image_name : String) (tag : String)
    (base_image : String) (git_commit : String) : BuildInvocation :=
  { src := source
    dockerfile := "Containerfile"
    build_args :=
      [{ name := "IMAGE_NAME", value := image_name },
       { name := "SHA_HEAD_SHORT", value := git_commit }] }

/-- Embedding of `check_containerfile(source)`: returns the contents of `Containerfile`
from the source directory, without building (`main.py` line 135). -/
def check_containerfile (source : Directory) : Option String :=
  Directory.file source "Containerfile"

/-- The fixed assertion commands `test` chains onto the built image. -/
def testCmds : List (List String) :=
  [["test", "-f", "/etc/dudley/build-manifest.json"],
   ["test", "-f", "/usr/bin/dudley-build-info"],
   ["bash", "-c", "ls -lh /usr/share/ublue-os/user-setup.hooks.d/"],
   ["dudley-build-info", "--json"]]

/-- Oracle for commands executed inside a built image (forcing the image may
also surface a build failure, which appears as the first command failing). -/
abbrev ImageExecOracle := BuildInvocation → List String → ExecResult

/-- Fail-fast run of a command list inside an image; on success returns the
stdout of the last command (what `.stdout()` yields), on failure the output
of the failing command as the error. -/
def runImageCmds (imgExec : ImageExecOracle) (image : BuildInvocation) :
    List (List String) → String → Except String String
  | [], last => Except.ok last
  | c :: rest, _ =>
      let r := imgExec image c
      if r.exitCode = 0 then runImageCmds imgExec image rest r.output
      else Except.error r.output

/-- Embedding of `test(image)`: runs the fixed assertions inside the image and formats the
success banner around the final stdout (`main.py` lines 160-170). -/
def test (imgExec : ImageExecOracle) (image : BuildInvocation) : Except String String :=
  match runImageCmds imgExec image testCmds "" with
  | Except.ok out => Except.ok ("✅ All tests passed!\n\nBuild info:\n" ++ out)
  | Except.error e => Except.error e

/-- The registry interaction `publish` performs: authenticate against
`authRegistry` with the two secrets and push `image` under `ref`. -/
structure PublishRequest where
  image : BuildInvocation
  authRegistry : String
  username : Secret
  password : Secret
  ref : String
deriving DecidableEq, Repr

/-- Registry oracle: the address the engine reports for a push, or the error. -/
abbrev PushOracle := PublishRequest → Except String String

/-- The request `publish` sends: auth against `registry` and push under
`registry/repository:tag` (`main.py` lines 217-224). -/
def publish_request (image : BuildInvocation) (registry : String) (repository : String)
    (username : Secret) (password : Secret) (tag : String) : PublishRequest :=
  { image := image
    authRegistry := registry
    username := username
    password := password
    ref := registry ++ "/" ++ repository ++ ":" ++ tag }

/-- Embedding of `publish(image, registry, repository, username, password,
tag)`: issues
the push request and wraps the reported address in the success message
(`main.py` lines 217-226). -/
def publish (push : PushOracle) (image : BuildInvocation) (registry : String)
    (repository : String) (username : Secret) (password : Secret) (tag : String) :
    Except String String :=
  match push (publish_request image registry repository username password tag) with
  | Except.ok address => Except.ok ("✅ Published to: " ++ address)
  | Except.error e => Except.error e

/-- Worker for `lastComponent`, on the character list of `s`. -/
def lastComponentAux : List Char → List Char → List Char
  | [], acc => acc
  | c :: rest, acc =>
      if c = '/' then lastComponentAux rest []
      else lastComponentAux rest (acc ++ [c])

/-- Embedding of the Python expression `s.split("/")[-1]`: the part of `s`
after its last slash. -/
def lastComponent (s : String) : String :=
  { data := lastComponentAux s.data [] }

/-- A built artifact handle: the container that produces it and the path of
the file extracted from it (`.file(path)`). -/
structure FileHandle where
  container : Container
  path : String
deriving DecidableEq, Repr

/-- Embedding of `build_iso(source, image_ref, config_file)`: a
bootc-image-builder run with
`--type iso` and the config resolved by basename under `/config`
(`main.py` lines 258-269). -/
def build_iso (source : Directory) (image_ref : String) (config_file : String) : FileHandle :=
  { container :=
      ((dag_container.from_ "quay.io/centos-bootc/bootc-image-builder:latest").with_directory
        "/config" (Directory.directory source "disk_config")).with_exec
        ["bootc-image-builder", "--type", "iso",
         "--config", "/config/" ++ lastComponent config_file, image_ref]
    path := "/output/image.iso" }

/-- Embedding of `build_qcow2(source, image_ref, config_file)`: same shape as `build_iso`
with `--type qcow2` (`main.py` lines 301-312). -/
def build_qcow2 (source : Directory) (image_ref : String) (config_file : String) : FileHandle :=
  { container :=
      ((dag_container.from_ "quay.io/centos-bootc/bootc-image-builder:latest").with_directory
        "/config" (Directory.directory source "disk_config")).with_exec
        ["bootc-image-builder", "--type", "qcow2",
         "--config", "/config/" ++ lastComponent config_file, image_ref]
    path := "/output/image.qcow2" }

/-- The pipeline stages `ci_pipeline` can invoke. -/
inductive Stage where
  | validateStage
  | buildStage
  | testStage
  | publishStage
deriving DecidableEq, Repr

/-- The oracles a pipeline run consults: validation-container commands,
in-image commands, and the registry push. -/
structure PipelineOracles where
  valOracle : ExecOracle
  imgExec : ImageExecOracle
  push : PushOracle

/-- Embedding of the image-name choice of `ci_pipeline` (`main.py` line 389):
the last path component of `repository`, or the default name when the
repository string is empty. -/
def pipelineImageName (repository : String) : String :=
  if repository = "" then "dudleys-second-bedroom" else lastComponent repository

/-- The default base image of `build`, used by `ci_pipeline` since it does
not pass `base_image`. -/
def defaultBaseImage : String := "ghcr.io/ublue-os/bluefin-dx:latest"

/-- The warning line emitted when publish is requested without credentials. -/
def skipPublishWarning : String := "⚠️  Skipping publish: username and password required"

/-- Step 4 of `ci_pipeline` (`main.py` lines 402-415): skip, warn-and-skip,
or authenticate-and-publish.  Returns the invoked stages and the result
lines (an error aborts with the publish error). -/
def publishStep (o : PipelineOracles) (publish_image : Bool) (image : BuildInvocation)
    (registry : String) (repository : String) (username : Option Secret)
    (password : Option Secret) (tag : String) (results : List String)
    (trace : List Stage) : List Stage × Except String (List String) :=
  if publish_image then
    match username, password with
    | some u, some p =>
        match publish o.push image registry repository u p tag with
        | Except.error e => (trace ++ [Stage.publishStage], Except.error e)
        | Except.ok pr =>
            (trace ++ [Stage.publishStage],
             Except.ok (results ++ ["📦 Publishing image...", pr]))
    | _, _ => (trace, Except.ok (results ++ [skipPublishWarning]))
  else (trace, Except.ok results)

/-- Embedding of `ci_pipeline` (`main.py` lines 377-417), kept as the list of
status lines it accumulates (the Python variable `results`) together with
the trace of stages it invoked; an error in a stage aborts with the error
of that stage. -/
def ci_pipeline_results (o : PipelineOracles) (source : Directory) (repository : String)
    (registry : String) (tag : String) (git_commit : String) (username : Option Secret)
    (password : Option Secret) (run_tests : Bool) (publish_image : Bool) :
    List Stage × Except String (List String) :=
  match ((validate source).run o.valOracle).error with
  | some e => ([Stage.validateStage], Except.error e)
  | none =>
      let r1 : List String :=
        ["🔍 Running validation...", "✅ Validation passed",
         "🔨 Building image (commit: " ++ git_commit ++ ")..."]
      let image := build source (pipelineImageName repository) tag defaultBaseImage git_commit
      let r2 := r1 ++ ["✅ Build completed"]
      if run_tests then
        match test o.imgExec image with
        | Except.error e =>
            ([Stage.validateStage, Stage.buildStage, Stage.testStage], Except.error e)
        | Except.ok tr =>
            publishStep o publish_image image registry repository username password tag
              (r2 ++ ["🧪 Running tests...", tr])
              [Stage.validateStage, Stage.buildStage, Stage.testStage]
      else
        publishStep o publish_image image registry repository username password tag r2
          [Stage.validateStage, Stage.buildStage]

/-- Return value of `ci_pipeline`: `"\n".join(results)` on success. -/
def ci_pipeline (o : PipelineOracles) (source : Directory) (repository : String)
    (registry : String) (tag : String) (git_commit : String) (username : Option Secret)
    (password : Option Secret) (run_tests : Bool) (publish_image : Bool) :
    List Stage × Except String String :=
  let r := ci_pipeline_results o source repository registry tag git_commit
    username password run_tests publish_image
  (r.1, Except.map (String.intercalate "\n") r.2)

/-- Embedding of `lint_containerfile(source)`: hadolint over the Containerfile
(`main.py` lines 438-444). -/
def lint_containerfile (source : Directory) : Container :=
  ((dag_container.from_ "hadolint/hadolint:latest").with_mounted_directory
    "/workspace" source).with_workdir "/workspace" |>.with_exec
    ["hadolint", "Containerfile"]

/-- A pipeline result is a failure, or a list of status lines; `line ∈`
means the success report contains that line. -/
def reportContains (r : Except String (List String)) (line : String) : Prop :=
  match r with
  | Except.ok lines => line ∈ lines
  | Except.error _ => False

end DudleysSecondBedroom

deriving instance DecidableEq for Except

namespace DudleysSecondBedroom

/-- All external commands succeed with empty output. -/
def allOkOracle : ExecOracle := fun _ => { exitCode := 0, output := "" }

/-- Every command succeeds: validation passes, tests pass, pushes report
back the requested reference. -/
def allOk : PipelineOracles :=
  { valOracle := allOkOracle
    imgExec := fun _ _ => { exitCode := 0, output := "" }
    push := fun r => Except.ok r.ref }

/-- A source whose only defect is a malformed `packages.json`: the jq
well-formedness check fails, every other command succeeds. -/
def jqFailOracle : ExecOracle := fun c =>
  if c = jqEmptyCmd then { exitCode := 1, output := "packages.json: parse error" }
  else { exitCode := 0, output := "" }

/-- C2: with the tool-installation step succeeding, `validate` succeeds iff
shellcheck, the jq well-formedness check and both validation scripts all
exit zero; and any non-zero exit among them fails the whole run with the
output of the first failing check as the error detail. -/
theorem validate_success_iff (source : Directory) (oracle : ExecOracle)
    (hdnf : (oracle dnfInstallCmd).exitCode = 0) :
    (((validate source).run oracle).error = none ↔
      ((oracle shellcheckCmd).exitCode = 0 ∧ (oracle jqEmptyCmd).exitCode = 0 ∧
       (oracle validateModulesCmd).exitCode = 0 ∧ (oracle validatePackagesCmd).exitCode = 0))
    ∧ ((oracle shellcheckCmd).exitCode ≠ 0 →
        ((validate source).run oracle).error = some (oracle shellcheckCmd).output)
    ∧ ((oracle shellcheckCmd).exitCode = 0 → (oracle jqEmptyCmd).exitCode ≠ 0 →
        ((validate source).run oracle).error = some (oracle jqEmptyCmd).output)
    ∧ ((oracle shellcheckCmd).exitCode = 0 → (oracle jqEmptyCmd).exitCode = 0 →
        (oracle validateModulesCmd).exitCode ≠ 0 →
        ((validate source).run oracle).error = some (oracle validateModulesCmd).output)
    ∧ ((oracle shellcheckCmd).exitCode = 0 → (oracle jqEmptyCmd).exitCode = 0 →
        (oracle validateModulesCmd).exitCode = 0 → (oracle validatePackagesCmd).exitCode ≠ 0 →
        ((validate source).run oracle).error = some (oracle validatePackagesCmd).output) := by
  have hops : (validate source).ops =
      [ContainerOp.withExec dnfInstallCmd, ContainerOp.withDirectory "/workspace" source,
       ContainerOp.withWorkdir "/workspace", ContainerOp.withExec shellcheckCmd,
       ContainerOp.withExec jqEmptyCmd, ContainerOp.withExec validateModulesCmd,
       ContainerOp.withExec validatePackagesCmd] := rfl
  by_cases h1 : (oracle shellcheckCmd).exitCode = 0 <;>
  by_cases h2 : (oracle jqEmptyCmd).exitCode = 0 <;>
  by_cases h3 : (oracle validateModulesCmd).exitCode = 0 <;>
  by_cases h4 : (oracle validatePackagesCmd).exitCode = 0 <;>
  simp [Container.run, hops, runOps, hdnf, h1, h2, h3, h4]

/-- Witness for C2: under the malformed-json oracle, `validate` fails with
the output of the jq check as the error detail. -/
theorem validate_success_iff_witness :
    ((validate []).run jqFailOracle).error = some "packages.json: parse error" :=
  (validate_success_iff [] jqFailOracle (by decide)).2.2.1 (by decide) (by decide)

end DudleysSecondBedroom

namespace DudleysSecondBedroom

/-- C9: `validate` issues its checks in the fixed order shellcheck, jq
well-formedness, validate-modules, validate-packages (after tool setup);
when only `packages.json` is malformed, the run fails at the jq check with
the output of that check, shellcheck having already run before it. -/
theorem validate_check_order (source : Directory) (oracle : ExecOracle)
    (hdnf : (oracle dnfInstallCmd).exitCode = 0)
    (hsc : (oracle shellcheckCmd).exitCode = 0)
    (hjq : (oracle jqEmptyCmd).exitCode ≠ 0) :
    Container.execArgs (validate source) =
      [dnfInstallCmd, shellcheckCmd, jqEmptyCmd, validateModulesCmd, validatePackagesCmd]
    ∧ ((validate source).run oracle).executed = [dnfInstallCmd, shellcheckCmd, jqEmptyCmd]
    ∧ ((validate source).run oracle).error = some (oracle jqEmptyCmd).output := by
  have hops : (validate source).ops =
      [ContainerOp.withExec dnfInstallCmd, ContainerOp.withDirectory "/workspace" source,
       ContainerOp.withWorkdir "/workspace", ContainerOp.withExec shellcheckCmd,
       ContainerOp.withExec jqEmptyCmd, ContainerOp.withExec validateModulesCmd,
       ContainerOp.withExec validatePackagesCmd] := rfl
  refine ⟨rfl, ?_, ?_⟩ <;>
  simp [Container.run, hops, runOps, hdnf, hsc, hjq]

/-- Witness for C9: the malformed-json oracle runs dnf, shellcheck, then
fails at the jq check. -/
theorem validate_check_order_witness :
    ((validate []).run jqFailOracle).executed = [dnfInstallCmd, shellcheckCmd, jqEmptyCmd]
    ∧ ((validate []).run jqFailOracle).error = some "packages.json: parse error" :=
  ⟨(validate_check_order [] jqFailOracle (by decide) (by decide) (by decide)).2.1,
   (validate_check_order [] jqFailOracle (by decide) (by decide) (by decide)).2.2⟩

/-- C5: `build_iso` resolves the configuration file by basename inside the
mounted `/config` directory: calls whose `config_file` differ only in
directory prefix (same basename) produce identical invocations, and the
`--config` argument passed to bootc-image-builder is `/config/` followed by
the basename. -/
theorem build_iso_config_basename (source : Directory) (image_ref : String) (f g : String)
    (h : lastComponent f = lastComponent g) :
    build_iso source image_ref f = build_iso source image_ref g
    ∧ Container.execArgs (build_iso source image_ref f).container =
        [["bootc-image-builder", "--type", "iso",
          "--config", "/config/" ++ lastComponent f, image_ref]] :=
  ⟨by simp [build_iso, h], rfl⟩

/-- Witness for C5: `"disk_config/custom.toml"` and `"custom.toml"` give the
same `build_iso` result, with `--config /config/custom.toml`. -/
theorem build_iso_config_basename_witness :
    build_iso [] "ghcr.io/joshyorko/dudleys-second-bedroom:latest" "disk_config/custom.toml" =
      build_iso [] "ghcr.io/joshyorko/dudleys-second-bedroom:latest" "custom.toml"
    ∧ Container.execArgs (build_iso [] "ghcr.io/joshyorko/dudleys-second-bedroom:latest"
        "disk_config/custom.toml").container =
        [["bootc-image-builder", "--type", "iso",
          "--config", "/config/custom.toml", "ghcr.io/joshyorko/dudleys-second-bedroom:latest"]] :=
  build_iso_config_basename [] "ghcr.io/joshyorko/dudleys-second-bedroom:latest"
    "disk_config/custom.toml" "custom.toml" (by decide)

/-- C6: `check_containerfile` returns exactly the contents of the file
`Containerfile` and is a pure read: it builds nothing, and its result
depends only on that file (so repeated calls on the same source agree
definitionally). -/
theorem check_containerfile_reads_file (source s2 : Directory) (c : String)
    (h : Directory.file source "Containerfile" = some c)
    (h2 : Directory.file s2 "Containerfile" = Directory.file source "Containerfile") :
    check_containerfile source = some c
    ∧ check_containerfile s2 = check_containerfile source :=
  ⟨h, by simp [check_containerfile, h2]⟩

/-- Witness for C6: a concrete source with a `Containerfile`. -/
theorem check_containerfile_reads_file_witness :
    check_containerfile [("Containerfile", "FROM ghcr.io/ublue-os/bluefin-dx:latest")] =
      some "FROM ghcr.io/ublue-os/bluefin-dx:latest"
    ∧ check_containerfile
        [("Containerfile", "FROM ghcr.io/ublue-os/bluefin-dx:latest"), ("packages.json", "x")] =
      check_containerfile [("Containerfile", "FROM ghcr.io/ublue-os/bluefin-dx:latest")] :=
  check_containerfile_reads_file
    [("Containerfile", "FROM ghcr.io/ublue-os/bluefin-dx:latest")]
    [("Containerfile", "FROM ghcr.io/ublue-os/bluefin-dx:latest"), ("packages.json", "x")]
    "FROM ghcr.io/ublue-os/bluefin-dx:latest" (by decide) (by decide)

/-- C7 counterexample: `publish` does not return the bare fully qualified
reference; it returns the success message that wraps it.  With a registry
that reports back exactly the requested reference, the returned string is
the wrapped message and differs from the reference itself. -/
theorem publish_wraps_reference :
    publish (fun r => Except.ok r.ref)
        (build [] "dudleys-second-bedroom" "latest" defaultBaseImage "abc")
        "ghcr.io" "joshyorko/dudleys-second-bedroom"
        { id := "user" } { id := "token" } "latest" =
      Except.ok "✅ Published to: ghcr.io/joshyorko/dudleys-second-bedroom:latest"
    ∧ publish (fun r => Except.ok r.ref)
        (build [] "dudleys-second-bedroom" "latest" defaultBaseImage "abc")
        "ghcr.io" "joshyorko/dudleys-second-bedroom"
        { id := "user" } { id := "token" } "latest" ≠
      Except.ok "ghcr.io/joshyorko/dudleys-second-bedroom:latest" := by
  constructor <;> decide

/-- C7 (amended): `publish` authenticates against the registry with the two
secrets and pushes the image under `registry/repository:tag`; on a
successful push reporting `address` it returns the success message
`"✅ Published to: " ++ address`. -/
theorem publish_auth_and_push (push : PushOracle) (image : BuildInvocation)
    (registry repository : String) (username password : Secret) (tag : String)
    (address : String)
    (h : push (publish_request image registry repository username password tag) =
      Except.ok address) :
    (publish_request image registry repository username password tag).ref =
        registry ++ "/" ++ repository ++ ":" ++ tag
    ∧ (publish_request image registry repository username password tag).authRegistry = registry
    ∧ (publish_request image registry repository username password tag).username = username
    ∧ (publish_request image registry repository username password tag).password = password
    ∧ (publish_request image registry repository username password tag).image = image
    ∧ publish push image registry repository username password tag =
        Except.ok ("✅ Published to: " ++ address) := by
  refine ⟨rfl, rfl, rfl, rfl, rfl, ?_⟩
  simp [publish, h]

/-- Witness for C7 (amended): a concrete successful push. -/
theorem publish_auth_and_push_witness :
    (publish_request (build [] "dudleys-second-bedroom" "latest" defaultBaseImage "abc")
        "ghcr.io" "joshyorko/dudleys-second-bedroom" { id := "user" } { id := "token" }
        "latest").ref = "ghcr.io" ++ "/" ++ "joshyorko/dudleys-second-bedroom" ++ ":" ++ "latest"
    ∧ publish (fun r => Except.ok r.ref)
        (build [] "dudleys-second-bedroom" "latest" defaultBaseImage "abc")
        "ghcr.io" "joshyorko/dudleys-second-bedroom" { id := "user" } { id := "token" }
        "latest" =
      Except.ok ("✅ Published to: " ++ "ghcr.io/joshyorko/dudleys-second-bedroom:latest") :=
  ⟨(publish_auth_and_push (fun r => Except.ok r.ref)
      (build [] "dudleys-second-bedroom" "latest" defaultBaseImage "abc")
      "ghcr.io" "joshyorko/dudleys-second-bedroom" { id := "user" } { id := "token" }
      "latest" "ghcr.io/joshyorko/dudleys-second-bedroom:latest" (by decide)).1,
   (publish_auth_and_push (fun r => Except.ok r.ref)
      (build [] "dudleys-second-bedroom" "latest" defaultBaseImage "abc")
      "ghcr.io" "joshyorko/dudleys-second-bedroom" { id := "user" } { id := "token" }
      "latest" "ghcr.io/joshyorko/dudleys-second-bedroom:latest" (by decide)).2.2.2.2.2⟩

/-- C8: `build` is a pure function of its arguments, so two calls with
identical inputs pass identical build arguments in either order; those
arguments are exactly `IMAGE_NAME` (the image name) and `SHA_HEAD_SHORT`
(the commit SHA). -/
theorem build_args_exactly_name_and_sha (source : Directory)
    (image_name tag base_image git_commit : String) :
    (build source image_name tag base_image git_commit).build_args =
      [{ name := "IMAGE_NAME", value := image_name },
       { name := "SHA_HEAD_SHORT", value := git_commit }] := rfl

/-- C10: `build` never reads `tag` or `base_image`: any two calls differing
only in those construct the same docker-build invocation, on the fixed
dockerfile `Containerfile` with build args `IMAGE_NAME` and
`SHA_HEAD_SHORT` only. -/
theorem build_ignores_tag_and_base (source : Directory)
    (image_name git_commit t1 t2 b1 b2 : String) :
    build source image_name t1 b1 git_commit = build source image_name t2 b2 git_commit
    ∧ (build source image_name t1 b1 git_commit).dockerfile = "Containerfile" :=
  ⟨rfl, rfl⟩

end DudleysSecondBedroom

namespace DudleysSecondBedroom

/-- Validation fails outright: every validation-container command exits 1. -/
def valFail : PipelineOracles :=
  { valOracle := fun _ => { exitCode := 1, output := "validation failed" }
    imgExec := fun _ _ => { exitCode := 0, output := "" }
    push := fun r => Except.ok r.ref }

/-- C1 counterexample: with every stage succeeding, `ci_pipeline` with
`run_tests=False, publish_image=False` returns a four-line report (a start
line and a completion line for each of Validate and Build), not a
two-entry one. -/
theorem ci_pipeline_report_not_two_entries :
    (ci_pipeline_results allOk [] "joshyorko/dudleys-second-bedroom" "ghcr.io" "latest" "abc"
        none none false false).2 =
      Except.ok ["🔍 Running validation...", "✅ Validation passed",
        "🔨 Building image (commit: abc)...", "✅ Build completed"]
    ∧ (ci_pipeline allOk [] "joshyorko/dudleys-second-bedroom" "ghcr.io" "latest" "abc"
        none none false false).2 =
      Except.ok ("🔍 Running validation...\n✅ Validation passed\n" ++
        "🔨 Building image (commit: abc)...\n✅ Build completed")
    ∧ (["🔍 Running validation...", "✅ Validation passed",
        "🔨 Building image (commit: abc)...", "✅ Build completed"] : List String).length = 4
    ∧ (["🔍 Running validation...", "✅ Validation passed",
        "🔨 Building image (commit: abc)...", "✅ Build completed"] : List String).length ≠ 2 :=
  ⟨rfl, rfl, rfl, by decide⟩

/-- C1 (amended): when validation succeeds, `ci_pipeline` with
`run_tests=False, publish_image=False` invokes exactly Validate then Build
and returns the four status lines (start and completion per stage) joined
into a single newline-separated string. -/
theorem ci_pipeline_validate_build_report (o : PipelineOracles) (source : Directory)
    (repository registry tag git_commit : String) (username password : Option Secret)
    (hval : ((validate source).run o.valOracle).error = none) :
    ci_pipeline o source repository registry tag git_commit username password false false =
      ([Stage.validateStage, Stage.buildStage],
       Except.ok (String.intercalate "\n"
         ["🔍 Running validation...", "✅ Validation passed",
          "🔨 Building image (commit: " ++ git_commit ++ ")...", "✅ Build completed"])) := by
  simp [ci_pipeline, ci_pipeline_results, hval, publishStep, Except.map]

/-- Witness for C1 (amended): a fully successful run. -/
theorem ci_pipeline_validate_build_report_witness :
    ci_pipeline allOk [] "joshyorko/dudleys-second-bedroom" "ghcr.io" "latest" "abc"
        none none false false =
      ([Stage.validateStage, Stage.buildStage],
       Except.ok (String.intercalate "\n"
         ["🔍 Running validation...", "✅ Validation passed",
          "🔨 Building image (commit: abc)...", "✅ Build completed"])) :=
  ci_pipeline_validate_build_report allOk [] "joshyorko/dudleys-second-bedroom" "ghcr.io"
    "latest" "abc" none none (by decide)

/-- C3: with `publish_image=True` and a missing username or password (and
the earlier stages succeeding), `ci_pipeline` never invokes the publish
stage (so no registry authentication happens) and returns a success report
containing the skip-warning line. -/
theorem ci_pipeline_missing_credentials (o : PipelineOracles) (source : Directory)
    (repository registry tag git_commit : String) (username password : Option Secret)
    (run_tests : Bool) (tr : String)
    (hval : ((validate source).run o.valOracle).error = none)
    (hcred : username = none ∨ password = none)
    (htest : run_tests = true →
      test o.imgExec (build source (pipelineImageName repository) tag defaultBaseImage
        git_commit) = Except.ok tr) :
    Stage.publishStage ∉ (ci_pipeline_results o source repository registry tag git_commit
        username password run_tests true).1
    ∧ reportContains (ci_pipeline_results o source repository registry tag git_commit
        username password run_tests true).2 skipPublishWarning := by
  have hskip : ∀ (image : BuildInvocation) (results : List String) (trace : List Stage),
      publishStep o true image registry repository username password tag results trace =
        (trace, Except.ok (results ++ [skipPublishWarning])) := by
    intro image results trace
    rcases hcred with h | h <;> subst h
    · rcases password with _ | p <;> rfl
    · rcases username with _ | u <;> rfl
  cases run_tests
  · simp [ci_pipeline_results, hval, hskip, reportContains]
  · have ht := htest rfl
    simp [ci_pipeline_results, hval, ht, hskip, reportContains]

/-- Witness for C3: publish requested with no credentials at all. -/
theorem ci_pipeline_missing_credentials_witness :
    Stage.publishStage ∉ (ci_pipeline_results allOk [] "joshyorko/dudleys-second-bedroom"
        "ghcr.io" "latest" "abc" none none false true).1
    ∧ reportContains (ci_pipeline_results allOk [] "joshyorko/dudleys-second-bedroom"
        "ghcr.io" "latest" "abc" none none false true).2 skipPublishWarning :=
  ci_pipeline_missing_credentials allOk [] "joshyorko/dudleys-second-bedroom" "ghcr.io"
    "latest" "abc" none none false "" (by decide) (Or.inl rfl) (fun h => nomatch h)

/-- C4: the stages a pipeline run invokes are always an order-preserving
selection of Validate, Build, Test, Publish; a validation failure aborts
the run with that error and only the Validate stage invoked, and a test
failure aborts the run before Publish. -/
theorem ci_pipeline_order_and_abort (o : PipelineOracles) (source : Directory)
    (repository registry tag git_commit : String) (username password : Option Secret)
    (run_tests publish_image : Bool) :
    List.Sublist
      (ci_pipeline_results o source repository registry tag git_commit username password
        run_tests publish_image).1
      [Stage.validateStage, Stage.buildStage, Stage.testStage, Stage.publishStage]
    ∧ (∀ e, ((validate source).run o.valOracle).error = some e →
        ci_pipeline_results o source repository registry tag git_commit username password
          run_tests publish_image = ([Stage.validateStage], Except.error e))
    ∧ (∀ e, ((validate source).run o.valOracle).error = none → run_tests = true →
        test o.imgExec (build source (pipelineImageName repository) tag defaultBaseImage
          git_commit) = Except.error e →
        ci_pipeline_results o source repository registry tag git_commit username password
          run_tests publish_image =
          ([Stage.validateStage, Stage.buildStage, Stage.testStage], Except.error e)) := by
  refine ⟨?_, ?_, ?_⟩
  · unfold ci_pipeline_results publishStep
    dsimp only
    repeat' split
    all_goals dsimp only
    all_goals decide
  · intro e hv
    simp [ci_pipeline_results, hv]
  · intro e hv hrt ht
    subst hrt
    simp [ci_pipeline_results, hv, ht]

/-- Witness for C4: a failing validation aborts with only the Validate
stage invoked; a fully successful run invokes an in-order selection. -/
theorem ci_pipeline_order_and_abort_witness :
    ci_pipeline_results valFail [] "joshyorko/dudleys-second-bedroom" "ghcr.io" "latest"
        "abc" none none true false = ([Stage.validateStage], Except.error "validation failed")
    ∧ List.Sublist
        (ci_pipeline_results allOk [] "joshyorko/dudleys-second-bedroom" "ghcr.io" "latest"
          "abc" none none true true).1
        [Stage.validateStage, Stage.buildStage, Stage.testStage, Stage.publishStage] :=
  ⟨(ci_pipeline_order_and_abort valFail [] "joshyorko/dudleys-second-bedroom" "ghcr.io"
      "latest" "abc" none none true false).2.1 "validation failed" (by decide),
   (ci_pipeline_order_and_abort allOk [] "joshyorko/dudleys-second-bedroom" "ghcr.io"
      "latest" "abc" none none true true).1⟩

end DudleysSecondBedroom
